import Mathlib

/-!
Verification of the request-authentication core of `authenticator.ts`
(`x-pack/plugins/security/server/authentication/authenticator.ts`): the session
envelope, the provider chain orchestration performed by `Authenticator.login`,
`Authenticator.authenticate` and `Authenticator.logout`, and the session-mutation
rules of `Authenticator.updateSessionValue` and `Authenticator.getSessionValue`.

The embedding is parameterized by the opaque provider-state type `St`, the request
type `Req` and the login-credential type `Val`.  The asynchronous session storage is
made explicit: every operation takes the current stored envelope and returns the list
of storage operations (`set`/`clear`) it performed, in order; `applyOps` replays that
list to obtain the final stored envelope.  Provider invocations are recorded in a call
log `(provider name, state passed)` so that claims about which providers are consulted,
in which order and with which state, are directly expressible.  The TypeScript non-null
assertions (`this.providers.get(...)!`) are modelled by returning `none` from the
enclosing operation when the lookup fails, so that their safety is provable.
-/

set_option autoImplicit false

/-- Modelled from the spec: the state-persistence intent a provider attaches to an
outcome (`authentication_result.ts` is not part of the sources) — no mention of state,
an explicit new state to persist, or an explicit request to clear persisted state.
At most one of update/clear holds, by construction. -/
inductive StateIntent (St : Type) where
  | noChange : StateIntent St
  | update : St → StateIntent St
  | clear : StateIntent St
deriving DecidableEq

/-- Modelled from the spec: `AuthenticationResult` (not under the sources) — variants
not-handled / succeeded / failed / redirected; succeeded and redirected optionally
carry a state intent; failed carries the error's status-code classification
(`getErrorStatusCode`), e.g. 401 for unauthorized. -/
inductive AuthenticationResult (St : Type) where
  | notHandled : AuthenticationResult St
  | succeeded : String → StateIntent St → AuthenticationResult St
  | failed : Nat → AuthenticationResult St
  | redirected : String → StateIntent St → AuthenticationResult St
deriving DecidableEq

/-- Modelled from the spec: `DeauthenticationResult` (not under the sources) —
not-handled or redirected(destination). -/
inductive DeauthenticationResult where
  | notHandled : DeauthenticationResult
  | redirected : String → DeauthenticationResult
deriving DecidableEq

namespace AuthenticationResult

/-- The `notHandled()` predicate of an outcome. -/
def isNotHandled {St : Type} : AuthenticationResult St → Bool
  | .notHandled => true
  | _ => false

/-- The `succeeded()` predicate of an outcome. -/
def isSucceeded {St : Type} : AuthenticationResult St → Bool
  | .succeeded _ _ => true
  | _ => false

/-- The `failed()` predicate of an outcome. -/
def isFailed {St : Type} : AuthenticationResult St → Bool
  | .failed _ => true
  | _ => false

/-- The `redirected()` predicate of an outcome. -/
def isRedirected {St : Type} : AuthenticationResult St → Bool
  | .redirected _ _ => true
  | _ => false

/-- The state an outcome asks to persist, when it carries an update intent
(`authenticationResult.state` under `shouldUpdateState()`). -/
def updateState {St : Type} : AuthenticationResult St → Option St
  | .succeeded _ (.update s) => some s
  | .redirected _ (.update s) => some s
  | _ => none

/-- The `shouldUpdateState()` intent query of an outcome. -/
def shouldUpdateState {St : Type} (r : AuthenticationResult St) : Bool :=
  r.updateState.isSome

/-- The `shouldClearState()` intent query of an outcome. -/
def shouldClearState {St : Type} : AuthenticationResult St → Bool
  | .succeeded _ .clear => true
  | .redirected _ .clear => true
  | _ => false

/-- Modelled from the spec: `getErrorStatusCode(authenticationResult.error)` (the
`errors` module is not under the sources) — the status classification carried by a
failed outcome, absent otherwise. -/
def errorStatusCode {St : Type} : AuthenticationResult St → Option Nat
  | .failed code => some code
  | _ => none

end AuthenticationResult

/-- The session envelope persisted between requests (`ProviderSession`): owning
provider name, absolute expiry (`none` models the `null` no-expiry sentinel) and the
opaque provider state. -/
structure ProviderSession (St : Type) where
  provider : String
  expires : Option Nat
  state : St
deriving DecidableEq

/-- A login attempt (`ProviderLoginAttempt`): target provider name and opaque
credential value. -/
structure ProviderLoginAttempt (Val : Type) where
  provider : String
  value : Val

/-- A session-storage operation performed during a call: `sessionStorage.set` or
`sessionStorage.clear`. -/
inductive StoreOp (St : Type) where
  | set : ProviderSession St → StoreOp St
  | clear : StoreOp St
deriving DecidableEq

/-- Replays a list of storage operations over the current stored envelope. -/
def applyOps {St : Type} (store : Option (ProviderSession St)) :
    List (StoreOp St) → Option (ProviderSession St)
  | [] => store
  | .set s :: rest => applyOps (some s) rest
  | .clear :: rest => applyOps none rest

/-- The capability contract of an authentication provider (`BaseAuthenticationProvider`):
`login(request, value, state)`, `authenticate(request, state)` and
`logout(request, state)`; the federated zero-state `logout(request)` is the `none`
state case. -/
structure Provider (St Req Val : Type) where
  login : Req → Val → Option St → AuthenticationResult St
  authenticate : Req → Option St → AuthenticationResult St
  logout : Req → Option St → DeauthenticationResult

/-- The `Authenticator`: the ordered, immutable provider registry (`this.providers`,
a JS `Map` iterated in insertion order), the session ttl (`this.ttl`, `none` models
`null`), the caller-supplied `isSystemAPIRequest` predicate and the imported
`isSAMLRequestQuery` predicate applied to the request's query. -/
structure Authenticator (St Req Val : Type) where
  providers : List (String × Provider St Req Val)
  ttl : Option Nat
  isSystemAPIRequest : Req → Bool
  isSAMLRequestQuery : Req → Bool

/-- `Map.get` over the registry list: first entry with the given name. -/
def findProvider {π : Type} : List (String × π) → String → Option π
  | [], _ => none
  | (n, p) :: rest, name => if n = name then some p else findProvider rest name

/-- One step of JS `Map` construction: setting an existing key replaces its value in
place, a new key is appended. -/
def jsMapInsert {π : Type} (m : List (String × π)) (key : String) (val : π) :
    List (String × π) :=
  if m.any (fun e => e.1 == key) then
    m.map (fun e => if e.1 = key then (key, val) else e)
  else m ++ [(key, val)]

/-- JS `new Map(entries)` semantics, as used by the `Authenticator` constructor to
build the registry from the configured provider list. -/
def jsMapOfList {π : Type} (entries : List (String × π)) : List (String × π) :=
  entries.foldl (fun m e => jsMapInsert m e.1 e.2) []

/-- `expires: this.ttl && Date.now() + this.ttl` — JS `&&` yields the left operand
when it is falsy (`null` or `0`), so a `null` ttl stores the no-expiry sentinel and a
zero ttl stores `0` (not `now`); any other ttl stores `now + ttl`. -/
def computeExpires (ttl : Option Nat) (now : Nat) : Option Nat :=
  match ttl with
  | none => none
  | some t => if t = 0 then some 0 else some (now + t)

/-- `ownsSession ? existingSession : null` — the session, if it is owned by the given
provider. -/
def ownedSession {St : Type} (existingSession : Option (ProviderSession St))
    (providerType : String) : Option (ProviderSession St) :=
  match existingSession with
  | some s => if s.provider = providerType then some s else none
  | none => none

/-- `ownsSession ? existingSession!.state : null` — the state passed to a provider's
`authenticate`. -/
def passedState {St : Type} (existingSession : Option (ProviderSession St))
    (providerType : String) : Option St :=
  (ownedSession existingSession providerType).map ProviderSession.state

/-- The observable execution of a `login`/`authenticate` call: the outcome returned,
the storage operations performed (in order), and the provider invocations performed
(provider name and the state passed to it, in order). -/
structure AuthExecution (St : Type) where
  result : AuthenticationResult St
  ops : List (StoreOp St)
  calls : List (String × Option St)
deriving DecidableEq

namespace Authenticator

/-- `Authenticator.getSessionValue`: read the envelope; if it names a provider that is
not in the registry, clear storage and report absent. -/
def getSessionValue {St Req Val : Type} (A : Authenticator St Req Val)
    (store : Option (ProviderSession St)) :
    Option (ProviderSession St) × List (StoreOp St) :=
  match store with
  | none => (none, [])
  | some s =>
    if (findProvider A.providers s.provider).isSome then (some s, [])
    else (none, [StoreOp.clear])

/-- `Authenticator.providerIterator`: no session — configured order; session — the
owning provider first (via the non-null registry lookup, modelled as `none` on
failure), then every other configured provider in configured order. -/
def providerIterator {St Req Val : Type} (A : Authenticator St Req Val) :
    Option (ProviderSession St) → Option (List (String × Provider St Req Val))
  | none => some A.providers
  | some s =>
    match findProvider A.providers s.provider with
    | none => none
    | some p =>
      some ((s.provider, p) :: A.providers.filter (fun e => e.1 != s.provider))

/-- `Authenticator.updateSessionValue`: return immediately when there is no (owned)
existing session and no update is requested; clear on an explicit clear intent or on a
failure classified 401; otherwise, when the outcome succeeded or redirected and either
requests an update or the request is not a system API request, store the new state (or
re-store the existing state) under the acting provider with a recomputed expiry. -/
def updateSessionValue {St Req Val : Type} (A : Authenticator St Req Val) (now : Nat)
    (providerType : String) (authenticationResult : AuthenticationResult St)
    (existingSession : Option (ProviderSession St)) (isSystemAPIRequest : Bool) :
    List (StoreOp St) :=
  match existingSession, authenticationResult.updateState with
  | none, none => []
  | none, some newState =>
    if authenticationResult.shouldClearState ||
        (authenticationResult.isFailed &&
          authenticationResult.errorStatusCode == some 401) then
      [StoreOp.clear]
    else if (authenticationResult.isSucceeded || authenticationResult.isRedirected) &&
        (authenticationResult.shouldUpdateState || !isSystemAPIRequest) then
      [StoreOp.set { state := newState, provider := providerType,
                     expires := computeExpires A.ttl now }]
    else []
  | some es, us =>
    if authenticationResult.shouldClearState ||
        (authenticationResult.isFailed &&
          authenticationResult.errorStatusCode == some 401) then
      [StoreOp.clear]
    else if (authenticationResult.isSucceeded || authenticationResult.isRedirected) &&
        (authenticationResult.shouldUpdateState || !isSystemAPIRequest) then
      [StoreOp.set { state := us.getD es.state, provider := providerType,
                     expires := computeExpires A.ttl now }]
    else []

/-- The provider loop of `Authenticator.authenticate`: call each provider in chain
order with the state it owns, apply the session-mutation rule after each call, stop at
the first outcome that failed, succeeded or redirected. -/
def authLoop {St Req Val : Type} (A : Authenticator St Req Val) (req : Req) (now : Nat)
    (existingSession : Option (ProviderSession St)) :
    List (String × Provider St Req Val) → AuthExecution St
  | [] => ⟨.notHandled, [], []⟩
  | (providerType, provider) :: rest =>
    let st := passedState existingSession providerType
    let authenticationResult := provider.authenticate req st
    let ops := A.updateSessionValue now providerType authenticationResult
        (ownedSession existingSession providerType) (A.isSystemAPIRequest req)
    if authenticationResult.isFailed || authenticationResult.isSucceeded ||
        authenticationResult.isRedirected then
      ⟨authenticationResult, ops, [(providerType, st)]⟩
    else
      let restExec := A.authLoop req now existingSession rest
      ⟨restExec.result, ops ++ restExec.ops, (providerType, st) :: restExec.calls⟩

/-- `Authenticator.authenticate`: load (and possibly purge) the session, then drive
the provider chain.  Returns `none` exactly when the non-null registry lookup inside
`providerIterator` would dereference a missing entry. -/
def authenticate {St Req Val : Type} (A : Authenticator St Req Val) (req : Req)
    (now : Nat) (store : Option (ProviderSession St)) : Option (AuthExecution St) :=
  let gs := A.getSessionValue store
  match A.providerIterator gs.1 with
  | none => none
  | some chain =>
    let e := A.authLoop req now gs.1 chain
    some ⟨e.result, gs.2 ++ e.ops, e.calls⟩

/-- `Authenticator.login`: unconfigured target — not-handled with no storage access;
otherwise load the session, purge it when it belongs to a different provider, invoke
the target provider's `login` with that provider's own state (if any), then clear the
session on a clear intent or 401-classified failure when an (owned) session survived,
or persist a requested state update. -/
def login {St Req Val : Type} (A : Authenticator St Req Val) (req : Req) (now : Nat)
    (attempt : ProviderLoginAttempt Val) (store : Option (ProviderSession St)) :
    AuthExecution St :=
  match findProvider A.providers attempt.provider with
  | none => ⟨.notHandled, [], []⟩
  | some provider =>
    let gs := A.getSessionValue store
    let cleared : Option (ProviderSession St) × List (StoreOp St) :=
      match gs.1 with
      | some s =>
        if s.provider ≠ attempt.provider then (none, [StoreOp.clear]) else (some s, [])
      | none => (none, [])
    let existingSession := cleared.1
    let authenticationResult :=
      provider.login req attempt.value (existingSession.map ProviderSession.state)
    let shouldClearSession := authenticationResult.shouldClearState ||
        (authenticationResult.isFailed &&
          authenticationResult.errorStatusCode == some 401)
    let finalOps :=
      if existingSession.isSome && shouldClearSession then [StoreOp.clear]
      else
        match authenticationResult.updateState with
        | some newState =>
          [StoreOp.set { state := newState, provider := attempt.provider,
                         expires := computeExpires A.ttl now }]
        | none => []
    ⟨authenticationResult, gs.2 ++ cleared.2 ++ finalOps,
      [(attempt.provider, existingSession.map ProviderSession.state)]⟩

/-- `Authenticator.logout`: with a session — clear storage, then delegate to the
owning provider (the non-null registry lookup is modelled as `none` on failure);
without one — delegate a recognizable SAML logout request to a configured saml
provider with no state, else not-handled. -/
def logout {St Req Val : Type} (A : Authenticator St Req Val) (req : Req)
    (store : Option (ProviderSession St)) :
    Option (DeauthenticationResult × List (StoreOp St)) :=
  let gs := A.getSessionValue store
  match gs.1 with
  | some s =>
    match findProvider A.providers s.provider with
    | none => none
    | some p => some (p.logout req (some s.state), gs.2 ++ [StoreOp.clear])
  | none =>
    if A.isSAMLRequestQuery req then
      match findProvider A.providers "saml" with
      | some p => some (p.logout req none, gs.2)
      | none => some (.notHandled, gs.2)
    else some (.notHandled, gs.2)

end Authenticator

/-! ### Concrete fixtures used by witnesses and counterexamples -/

def pNotHandled : Provider Nat Nat Nat :=
  ⟨fun _ _ _ => .notHandled, fun _ _ => .notHandled, fun _ _ => .notHandled⟩

def pFail401 : Provider Nat Nat Nat :=
  ⟨fun _ _ _ => .failed 401, fun _ _ => .failed 401, fun _ _ => .notHandled⟩

def pSucceedKeep : Provider Nat Nat Nat :=
  ⟨fun _ _ _ => .succeeded "user" .noChange, fun _ _ => .succeeded "user" .noChange,
   fun _ _ => .notHandled⟩

def pSucceedUpd : Provider Nat Nat Nat :=
  ⟨fun _ _ _ => .succeeded "user" (.update 7), fun _ _ => .succeeded "user" (.update 7),
   fun _ _ => .notHandled⟩

def pSucceedClear : Provider Nat Nat Nat :=
  ⟨fun _ _ _ => .succeeded "user" .clear, fun _ _ => .succeeded "user" .clear,
   fun _ _ => .notHandled⟩

def pRoundTrip : Provider Nat Nat Nat :=
  ⟨fun _ _ _ => .succeeded "user" (.update 7), fun _ _ => .succeeded "user" .noChange,
   fun _ _ => .notHandled⟩

def pRoundClear : Provider Nat Nat Nat :=
  ⟨fun _ _ _ => .succeeded "user" (.update 7), fun _ _ => .succeeded "user" .clear,
   fun _ _ => .notHandled⟩

def demoP : Authenticator Nat Nat Nat :=
  ⟨[("p", pNotHandled)], some 60, fun _ => false, fun _ => false⟩

def demoPQ : Authenticator Nat Nat Nat :=
  ⟨[("p", pNotHandled), ("q", pFail401)], some 60, fun _ => false, fun _ => false⟩

def demoPQ2 : Authenticator Nat Nat Nat :=
  ⟨[("p", pNotHandled), ("q", pSucceedUpd)], some 60, fun _ => false, fun _ => false⟩

def demoUpd : Authenticator Nat Nat Nat :=
  ⟨[("p", pSucceedUpd)], some 60, fun _ => false, fun _ => false⟩

def demoPQKeep : Authenticator Nat Nat Nat :=
  ⟨[("p", pNotHandled), ("q", pSucceedKeep)], some 60, fun _ => false, fun _ => false⟩

def demoTtl0 : Authenticator Nat Nat Nat :=
  ⟨[("p", pSucceedUpd)], some 0, fun _ => false, fun _ => false⟩

def demoSysKeep : Authenticator Nat Nat Nat :=
  ⟨[("p", pSucceedKeep)], some 60, fun _ => true, fun _ => false⟩

def demoSysUpd : Authenticator Nat Nat Nat :=
  ⟨[("p", pSucceedUpd)], some 60, fun _ => true, fun _ => false⟩

def demoSysClear : Authenticator Nat Nat Nat :=
  ⟨[("p", pSucceedClear)], some 60, fun _ => true, fun _ => false⟩

def demoRound : Authenticator Nat Nat Nat :=
  ⟨[("p", pRoundTrip)], some 60, fun _ => false, fun _ => false⟩

def demoRoundClear : Authenticator Nat Nat Nat :=
  ⟨[("p", pRoundClear)], some 60, fun _ => false, fun _ => false⟩


/-! ### Supporting lemmas -/

theorem applyOps_append {St : Type} (store : Option (ProviderSession St))
    (l1 l2 : List (StoreOp St)) :
    applyOps store (l1 ++ l2) = applyOps (applyOps store l1) l2 := by
  induction l1 generalizing store with
  | nil => rfl
  | cons op rest ih => cases op <;> simp [applyOps, ih]

theorem applyOps_concat_clear {St : Type} (store : Option (ProviderSession St))
    (l : List (StoreOp St)) : applyOps store (l ++ [StoreOp.clear]) = none := by
  rw [applyOps_append]; rfl

theorem applyOps_concat_set {St : Type} (store : Option (ProviderSession St))
    (l : List (StoreOp St)) (s : ProviderSession St) :
    applyOps store (l ++ [StoreOp.set s]) = some s := by
  rw [applyOps_append]; rfl

theorem stops_eq_not_isNotHandled {St : Type} (r : AuthenticationResult St) :
    (r.isFailed || r.isSucceeded || r.isRedirected) = !r.isNotHandled := by
  cases r <;> rfl

theorem updateState_some_shouldClearState {St : Type} {r : AuthenticationResult St}
    {s : St} (h : r.updateState = some s) : r.shouldClearState = false := by
  cases r with
  | notHandled => rfl
  | failed c => rfl
  | succeeded u i =>
    cases i with
    | noChange => rfl
    | update s2 => rfl
    | clear => simp [AuthenticationResult.updateState] at h
  | redirected d i =>
    cases i with
    | noChange => rfl
    | update s2 => rfl
    | clear => simp [AuthenticationResult.updateState] at h

theorem updateState_some_isFailed {St : Type} {r : AuthenticationResult St}
    {s : St} (h : r.updateState = some s) : r.isFailed = false := by
  cases r with
  | notHandled => rfl
  | succeeded u i => rfl
  | redirected d i => rfl
  | failed c => simp [AuthenticationResult.updateState] at h

theorem updateState_some_stops {St : Type} {r : AuthenticationResult St}
    {s : St} (h : r.updateState = some s) : (r.isSucceeded || r.isRedirected) = true := by
  cases r with
  | succeeded u i => rfl
  | redirected d i => rfl
  | notHandled => simp [AuthenticationResult.updateState] at h
  | failed c => simp [AuthenticationResult.updateState] at h

theorem updateSessionValue_notHandled {St Req Val : Type} (A : Authenticator St Req Val)
    (now : Nat) (providerType : String) (es : Option (ProviderSession St))
    (isSys : Bool) :
    A.updateSessionValue now providerType .notHandled es isSys = [] := by
  cases es <;> rfl

theorem authLoop_exhausts {St Req Val : Type} (A : Authenticator St Req Val) (req : Req)
    (now : Nat) (sess : Option (ProviderSession St))
    (chain : List (String × Provider St Req Val))
    (h : ∀ e ∈ chain, Provider.authenticate e.2 req (passedState sess e.1) = .notHandled) :
    A.authLoop req now sess chain =
      ⟨.notHandled, [], chain.map fun e => (e.1, passedState sess e.1)⟩ := by
  induction chain with
  | nil => rfl
  | cons hd tl ih =>
    have hhd : Provider.authenticate hd.2 req (passedState sess hd.1) = .notHandled :=
      h hd (List.mem_cons_self hd tl)
    have htl : ∀ e ∈ tl, Provider.authenticate e.2 req (passedState sess e.1) = .notHandled :=
      fun e he => h e (List.mem_cons_of_mem hd he)
    cases hd with
    | mk pt p =>
      simp only [Authenticator.authLoop] at *
      rw [hhd, ih htl]
      simp [updateSessionValue_notHandled, AuthenticationResult.isFailed,
        AuthenticationResult.isSucceeded, AuthenticationResult.isRedirected]

theorem authLoop_stops {St Req Val : Type} (A : Authenticator St Req Val) (req : Req)
    (now : Nat) (sess : Option (ProviderSession St))
    (pre : List (String × Provider St Req Val)) (qname : String)
    (q : Provider St Req Val) (post : List (String × Provider St Req Val))
    (hpre : ∀ e ∈ pre, Provider.authenticate e.2 req (passedState sess e.1) = .notHandled)
    (hq : (Provider.authenticate q req (passedState sess qname)).isNotHandled = false) :
    A.authLoop req now sess (pre ++ (qname, q) :: post) =
      ⟨Provider.authenticate q req (passedState sess qname),
       A.updateSessionValue now qname (Provider.authenticate q req (passedState sess qname))
         (ownedSession sess qname) (A.isSystemAPIRequest req),
       (pre.map fun e => (e.1, passedState sess e.1)) ++ [(qname, passedState sess qname)]⟩ := by
  induction pre with
  | nil =>
    simp only [List.nil_append, Authenticator.authLoop]
    rw [stops_eq_not_isNotHandled, hq]
    simp
  | cons hd tl ih =>
    have hhd : Provider.authenticate hd.2 req (passedState sess hd.1) = .notHandled :=
      hpre hd (List.mem_cons_self hd tl)
    have htl : ∀ e ∈ tl, Provider.authenticate e.2 req (passedState sess e.1) = .notHandled :=
      fun e he => hpre e (List.mem_cons_of_mem hd he)
    cases hd with
    | mk pt p =>
      simp only [List.cons_append, Authenticator.authLoop, List.append_eq]
      rw [hhd, ih htl]
      simp [updateSessionValue_notHandled, AuthenticationResult.isFailed,
        AuthenticationResult.isSucceeded, AuthenticationResult.isRedirected]

theorem map_fst_filter_ne {π : Type} (l : List (String × π)) (v : String) :
    (l.filter fun e => e.1 != v).map Prod.fst = (l.map Prod.fst).filter fun n => n != v := by
  induction l with
  | nil => rfl
  | cons hd tl ih =>
    by_cases h : hd.1 = v <;> simp [List.filter_cons, h, ih]

theorem chainNames_nodup {π : Type} (l : List (String × π)) (v : String)
    (h : (l.map Prod.fst).Nodup) :
    (v :: ((l.filter fun e => e.1 != v).map Prod.fst)).Nodup := by
  rw [map_fst_filter_ne]
  refine List.nodup_cons.mpr ⟨?_, List.Nodup.filter _ h⟩
  intro hmem
  have hv := (List.mem_filter.mp hmem).2
  simp at hv

theorem jsMapInsert_keys_nodup {π : Type} (m : List (String × π)) (key : String)
    (val : π) (h : (m.map Prod.fst).Nodup) :
    ((jsMapInsert m key val).map Prod.fst).Nodup := by
  unfold jsMapInsert
  split
  · have hkeys : (m.map fun e => if e.1 = key then (key, val) else e).map Prod.fst =
        m.map Prod.fst := by
      rw [List.map_map]
      apply List.map_congr_left
      intro e _
      by_cases hk : e.1 = key <;> simp [hk]
    rw [hkeys]; exact h
  · rename_i hna
    rw [List.map_append, List.nodup_append]
    refine ⟨h, by simp, ?_⟩
    intro a ha hb
    simp only [List.map_cons, List.map_nil, List.mem_singleton] at hb
    subst hb
    rcases List.mem_map.mp ha with ⟨e, he, hfst⟩
    exact hna (List.any_eq_true.mpr ⟨e, he, by simp [hfst]⟩)

theorem jsMapFold_keys_nodup {π : Type} (entries m : List (String × π))
    (h : (m.map Prod.fst).Nodup) :
    ((entries.foldl (fun acc e => jsMapInsert acc e.1 e.2) m).map Prod.fst).Nodup := by
  induction entries generalizing m with
  | nil => exact h
  | cons hd tl ih => exact ih _ (jsMapInsert_keys_nodup _ _ _ h)

/-- The registry built by the constructor from the configured provider list always has
pairwise-distinct provider names (JS `Map` key semantics). -/
theorem jsMapOfList_keys_nodup {π : Type} (entries : List (String × π)) :
    ((jsMapOfList entries).map Prod.fst).Nodup :=
  jsMapFold_keys_nodup entries [] List.nodup_nil

theorem getSessionValue_fst_some {St Req Val : Type} (A : Authenticator St Req Val)
    (store : Option (ProviderSession St)) (s : ProviderSession St)
    (h : (A.getSessionValue store).1 = some s) :
    (findProvider A.providers s.provider).isSome = true ∧ store = some s ∧
      (A.getSessionValue store).2 = [] := by
  cases store with
  | none => simp [Authenticator.getSessionValue] at h
  | some s2 =>
    cases hp : findProvider A.providers s2.provider with
    | none => simp [Authenticator.getSessionValue, hp] at h
    | some p =>
      simp only [Authenticator.getSessionValue, hp, Option.isSome_some, if_true] at h ⊢
      injection h with h2
      subst h2
      simp [hp]

theorem stops_not_isFailed {St : Type} {r : AuthenticationResult St}
    (h : (r.isSucceeded || r.isRedirected) = true) : r.isFailed = false := by
  cases r <;> simp [AuthenticationResult.isSucceeded, AuthenticationResult.isRedirected,
    AuthenticationResult.isFailed] at h ⊢

theorem updateSessionValue_none_noUpdate {St Req Val : Type} (A : Authenticator St Req Val)
    (now : Nat) (pt : String) (r : AuthenticationResult St) (isSys : Bool)
    (hn : r.updateState = none) :
    A.updateSessionValue now pt r none isSys = [] := by
  simp [Authenticator.updateSessionValue, hn]

theorem updateSessionValue_updateState {St Req Val : Type} (A : Authenticator St Req Val)
    (now : Nat) (pt : String) (r : AuthenticationResult St)
    (es : Option (ProviderSession St)) (isSys : Bool) (ns : St)
    (h : r.updateState = some ns) :
    A.updateSessionValue now pt r es isSys =
      [StoreOp.set ⟨pt, computeExpires A.ttl now, ns⟩] := by
  have hc := updateState_some_shouldClearState h
  have hf := updateState_some_isFailed h
  have hs := updateState_some_stops h
  cases es with
  | none =>
    simp [Authenticator.updateSessionValue, h, hc, hf, hs,
      AuthenticationResult.shouldUpdateState]
  | some es =>
    simp [Authenticator.updateSessionValue, h, hc, hf, hs,
      AuthenticationResult.shouldUpdateState]

theorem updateSessionValue_extend {St Req Val : Type} (A : Authenticator St Req Val)
    (now : Nat) (pt : String) (r : AuthenticationResult St) (es : ProviderSession St)
    (isSys : Bool) (hs : (r.isSucceeded || r.isRedirected) = true)
    (hn : r.updateState = none) (hc : r.shouldClearState = false) :
    A.updateSessionValue now pt r (some es) isSys =
      if isSys then []
      else [StoreOp.set ⟨pt, computeExpires A.ttl now, es.state⟩] := by
  have hf := stops_not_isFailed hs
  cases hsy : isSys <;>
    simp [Authenticator.updateSessionValue, hn, hc, hf, hs,
      AuthenticationResult.shouldUpdateState]

/-- Shape of `login` once the attempt's provider is found in the registry: some prefix
of storage operations (the possible purge of a stale or foreign session) runs first
and leaves exactly the surviving owned session `exSt`, which is what the provider's
`login` receives; then the clear-or-update rule appends its own operation. -/
theorem login_found_shape {St Req Val : Type} (A : Authenticator St Req Val) (req : Req)
    (now : Nat) (attempt : ProviderLoginAttempt Val)
    (store : Option (ProviderSession St)) (q : Provider St Req Val)
    (hp : findProvider A.providers attempt.provider = some q) :
    ∃ (exSt : Option (ProviderSession St)) (pre : List (StoreOp St)),
      (A.login req now attempt store =
        (let r := Provider.login q req attempt.value (exSt.map ProviderSession.state)
         let shouldClear := r.shouldClearState ||
            (r.isFailed && r.errorStatusCode == some 401)
         let finalOps :=
           if exSt.isSome && shouldClear then [StoreOp.clear]
           else match r.updateState with
             | some ns =>
               [StoreOp.set ⟨attempt.provider, computeExpires A.ttl now, ns⟩]
             | none => []
         ⟨r, pre ++ finalOps, [(attempt.provider, exSt.map ProviderSession.state)]⟩)) ∧
      applyOps store pre = exSt ∧
      (∀ s0, exSt = some s0 → s0.provider = attempt.provider ∧ store = some s0) ∧
      (∀ s0, store = some s0 → exSt = none → pre = [StoreOp.clear]) := by
  cases store with
  | none =>
    refine ⟨none, [], ?_, rfl, by simp, by simp⟩
    simp [Authenticator.login, hp, Authenticator.getSessionValue]
  | some s =>
    by_cases heq : s.provider = attempt.provider
    · have hps : findProvider A.providers s.provider = some q := by rw [heq]; exact hp
      refine ⟨some s, [], ?_, rfl, ?_, by simp⟩
      · simp [Authenticator.login, hp, Authenticator.getSessionValue, hps, heq]
      · intro s0 h0
        injection h0 with h0
        subst h0
        exact ⟨heq, rfl⟩
    · cases hps : findProvider A.providers s.provider with
      | none =>
        refine ⟨none, [StoreOp.clear], ?_, rfl, by simp, by simp⟩
        simp [Authenticator.login, hp, Authenticator.getSessionValue, hps]
      | some p =>
        refine ⟨none, [StoreOp.clear], ?_, rfl, by simp, by simp⟩
        simp [Authenticator.login, hp, Authenticator.getSessionValue, hps, heq]

theorem passedState_owner {St : Type} (s : ProviderSession St) :
    passedState (some s) s.provider = some s.state := by
  simp [passedState, ownedSession]

theorem ownedSession_owner {St : Type} (s : ProviderSession St) :
    ownedSession (some s) s.provider = some s := by
  simp [ownedSession]

theorem passedState_other {St : Type} (s : ProviderSession St) (n : String)
    (h : s.provider ≠ n) : passedState (some s) n = none := by
  simp [passedState, ownedSession, h]

theorem ownedSession_other {St : Type} (s : ProviderSession St) (n : String)
    (h : s.provider ≠ n) : ownedSession (some s) n = none := by
  simp [ownedSession, h]

theorem authenticate_session_head {St Req Val : Type} (A : Authenticator St Req Val)
    (req : Req) (now : Nat) (s : ProviderSession St) (p : Provider St Req Val)
    (hp : findProvider A.providers s.provider = some p) :
    A.authenticate req now (some s) =
      some (A.authLoop req now (some s)
        ((s.provider, p) :: A.providers.filter fun e => e.1 != s.provider)) := by
  simp [Authenticator.authenticate, Authenticator.getSessionValue, hp,
    Authenticator.providerIterator]

theorem authenticate_no_session {St Req Val : Type} (A : Authenticator St Req Val)
    (req : Req) (now : Nat) :
    A.authenticate req now none = some (A.authLoop req now none A.providers) := by
  simp [Authenticator.authenticate, Authenticator.getSessionValue,
    Authenticator.providerIterator]

theorem login_failed401_clears {St Req Val : Type} (A : Authenticator St Req Val)
    (req : Req) (now : Nat) (attempt : ProviderLoginAttempt Val)
    (store : Option (ProviderSession St))
    (hf : (A.login req now attempt store).result.isFailed = true)
    (h4 : (A.login req now attempt store).result.errorStatusCode = some 401) :
    applyOps store (A.login req now attempt store).ops = none := by
  cases hp : findProvider A.providers attempt.provider with
  | none =>
    rw [show A.login req now attempt store = ⟨.notHandled, [], []⟩ from by
      simp [Authenticator.login, hp]] at hf
    simp [AuthenticationResult.isFailed] at hf
  | some q =>
    obtain ⟨exSt, pre, heq, happly, hown, hpre⟩ :=
      login_found_shape A req now attempt store q hp
    rw [heq] at hf h4 ⊢
    cases hr : Provider.login q req attempt.value (exSt.map ProviderSession.state) with
    | notHandled =>
      simp [AuthenticationResult.isFailed, hr] at hf
    | succeeded u i =>
      simp [AuthenticationResult.isFailed, hr] at hf
    | redirected d i =>
      simp [AuthenticationResult.isFailed, hr] at hf
    | failed c =>
      simp only [AuthenticationResult.errorStatusCode, hr] at h4
      injection h4 with h4
      subst h4
      cases hx : exSt with
      | some s =>
        simp [AuthenticationResult.shouldClearState, AuthenticationResult.isFailed,
          AuthenticationResult.errorStatusCode, AuthenticationResult.updateState,
          applyOps_concat_clear]
      | none =>
        rw [hx] at happly
        simp [AuthenticationResult.shouldClearState, AuthenticationResult.isFailed,
          AuthenticationResult.errorStatusCode, AuthenticationResult.updateState,
          happly]

theorem login_updateState_set {St Req Val : Type} (A : Authenticator St Req Val)
    (req : Req) (now : Nat) (attempt : ProviderLoginAttempt Val)
    (store : Option (ProviderSession St)) (ns : St)
    (h : (A.login req now attempt store).result.updateState = some ns) :
    ∃ l, (A.login req now attempt store).ops =
        l ++ [StoreOp.set ⟨attempt.provider, computeExpires A.ttl now, ns⟩] ∧
      applyOps store (A.login req now attempt store).ops =
        some ⟨attempt.provider, computeExpires A.ttl now, ns⟩ := by
  cases hp : findProvider A.providers attempt.provider with
  | none =>
    rw [show A.login req now attempt store = ⟨.notHandled, [], []⟩ from by
      simp [Authenticator.login, hp]] at h
    simp [AuthenticationResult.updateState] at h
  | some q =>
    obtain ⟨exSt, pre, heq, happly, hown, hpre⟩ :=
      login_found_shape A req now attempt store q hp
    rw [heq] at h ⊢
    have h2 : (Provider.login q req attempt.value
        (exSt.map ProviderSession.state)).updateState = some ns := h
    have hc := updateState_some_shouldClearState h2
    have hf := updateState_some_isFailed h2
    simp only [h2, hc, hf, Bool.false_or, Bool.false_and, Bool.and_false]
    exact ⟨pre, rfl, applyOps_concat_set store pre _⟩

/-! ### Claims -/

/-- Claim C6 (confirmed): with at least one configured provider, a login call whose
attempt names a provider absent from the registry returns the not-handled outcome and
performs no session-store operation at all — in the code the registry check precedes
any session-storage access, so not even the `getSessionValue` purge can run. -/
theorem claim6_login_unconfigured {St Req Val : Type} (A : Authenticator St Req Val)
    (req : Req) (now : Nat) (attempt : ProviderLoginAttempt Val)
    (store : Option (ProviderSession St)) (hne : A.providers ≠ [])
    (habs : findProvider A.providers attempt.provider = none) :
    A.login req now attempt store = ⟨.notHandled, [], []⟩ := by
  simp [Authenticator.login, habs]

theorem claim6_witness :
    demoP.login 0 0 ⟨"basic", 5⟩ (some ⟨"p", none, 3⟩) = ⟨.notHandled, [], []⟩ :=
  claim6_login_unconfigured demoP 0 0 ⟨"basic", 5⟩ (some ⟨"p", none, 3⟩)
    (by simp [demoP]) (by simp [demoP, findProvider])

/-- Claim C8 (confirmed): a logout call with no stored session envelope and no
recognizable SAML logout query returns the not-handled deauthentication outcome and
performs no session-store set or clear. -/
theorem claim8_logout_no_session {St Req Val : Type} (A : Authenticator St Req Val)
    (req : Req) (hsaml : A.isSAMLRequestQuery req = false) :
    A.logout req none = some (.notHandled, []) := by
  simp [Authenticator.logout, Authenticator.getSessionValue, hsaml]

theorem claim8_witness : demoP.logout 0 none = some (.notHandled, []) :=
  claim8_logout_no_session demoP 0 rfl

/-- Claim C10 (confirmed): every session value surviving `getSessionValue` names a
provider present in the registry (stale sessions are purged and reported absent), so
the unchecked registry lookups on a session's provider performed by `logout` and by
`providerIterator` — modelled as a `none` overall result when they would dereference a
missing entry — always succeed: `authenticate` and `logout` always return a value. -/
theorem claim10_assertions_safe {St Req Val : Type} (A : Authenticator St Req Val) :
    (∀ store s, (A.getSessionValue store).1 = some s →
      (findProvider A.providers s.provider).isSome = true) ∧
    (∀ req now store, (A.authenticate req now store).isSome = true) ∧
    (∀ req store, (A.logout req store).isSome = true) := by
  refine ⟨fun store s h => (getSessionValue_fst_some A store s h).1, ?_, ?_⟩
  · intro req now store
    cases hg : (A.getSessionValue store).1 with
    | none =>
      simp [Authenticator.authenticate, hg, Authenticator.providerIterator]
    | some s =>
      obtain ⟨hfind, -, -⟩ := getSessionValue_fst_some A store s hg
      obtain ⟨p, hp⟩ := Option.isSome_iff_exists.mp hfind
      simp [Authenticator.authenticate, hg, Authenticator.providerIterator, hp]
  · intro req store
    cases hg : (A.getSessionValue store).1 with
    | none =>
      cases hq : A.isSAMLRequestQuery req
      · simp [Authenticator.logout, hg, hq]
      · cases hsp : findProvider A.providers "saml" <;>
          simp [Authenticator.logout, hg, hq, hsp]
    | some s =>
      obtain ⟨hfind, -, -⟩ := getSessionValue_fst_some A store s hg
      obtain ⟨p, hp⟩ := Option.isSome_iff_exists.mp hfind
      simp [Authenticator.logout, hg, hp]

theorem claim10_witness :
    (demoPQ.authenticate 0 0 (some ⟨"basic", none, 3⟩)).isSome = true ∧
    (demoPQ.logout 0 (some ⟨"basic", none, 3⟩)).isSome = true :=
  ⟨(claim10_assertions_safe demoPQ).2.1 0 0 (some ⟨"basic", none, 3⟩),
   (claim10_assertions_safe demoPQ).2.2 0 (some ⟨"basic", none, 3⟩)⟩

/-- Claim C3 (confirmed): a login call targeting configured provider Q while the
stored session belongs to a different provider P clears that session before Q's login
runs (the call's first storage operation is a clear) and invokes Q's login with no
existing provider state — the call log records the invocation `(Q, none)`. -/
theorem claim3_login_supersedes {St Req Val : Type} (A : Authenticator St Req Val)
    (req : Req) (now : Nat) (attempt : ProviderLoginAttempt Val)
    (s : ProviderSession St) (q : Provider St Req Val)
    (hq : findProvider A.providers attempt.provider = some q)
    (hne : s.provider ≠ attempt.provider) :
    ∃ rest, A.login req now attempt (some s) =
      ⟨Provider.login q req attempt.value none, StoreOp.clear :: rest,
       [(attempt.provider, none)]⟩ := by
  obtain ⟨exSt, pre, heq, happly, hown, hpre⟩ :=
    login_found_shape A req now attempt (some s) q hq
  have hex : exSt = none := by
    cases hx : exSt with
    | none => rfl
    | some s0 =>
      obtain ⟨hp0, hs0⟩ := hown s0 hx
      injection hs0 with hs0
      subst hs0
      exact absurd hp0 hne
  have hpre2 : pre = [StoreOp.clear] := hpre s rfl hex
  rw [hex, hpre2] at heq
  refine ⟨match (Provider.login q req attempt.value none).updateState with
    | some ns => [StoreOp.set ⟨attempt.provider, computeExpires A.ttl now, ns⟩]
    | none => [], ?_⟩
  rw [heq]
  rfl

theorem claim3_witness :
    ∃ rest, demoPQ2.login 0 0 ⟨"q", 5⟩ (some ⟨"p", none, 3⟩) =
      ⟨Provider.login pSucceedUpd 0 5 none, StoreOp.clear :: rest, [("q", none)]⟩ :=
  claim3_login_supersedes demoPQ2 0 0 ⟨"q", 5⟩ ⟨"p", none, 3⟩ pSucceedUpd
    (by simp [demoPQ2, findProvider]) (by decide)

theorem isFailed_isNotHandled {St : Type} {r : AuthenticationResult St}
    (h : r.isFailed = true) : r.isNotHandled = false := by
  cases r <;> simp [AuthenticationResult.isFailed, AuthenticationResult.isNotHandled] at h ⊢

theorem stops_isNotHandled {St : Type} {r : AuthenticationResult St}
    (h : (r.isSucceeded || r.isRedirected) = true) : r.isNotHandled = false := by
  cases r <;> simp [AuthenticationResult.isSucceeded, AuthenticationResult.isRedirected,
    AuthenticationResult.isNotHandled] at h ⊢

theorem updateSessionValue_failed401 {St Req Val : Type} (A : Authenticator St Req Val)
    (now : Nat) (pt : String) (es : ProviderSession St) (isSys : Bool) :
    A.updateSessionValue now pt (.failed 401) (some es) isSys = [StoreOp.clear] := rfl

/-- Claim C1 (corrected): for `login`, an outcome failing with a 401-classified error
always leaves the store cleared, regardless of which provider owned the prior session
(a foreign session is purged before the provider even runs).  For `authenticate` this
holds only when the 401-failing provider owns the current session (it is then visited
first); a 401 failure from a provider that does not own the session leaves the other
provider's session in place, as the counterexample shows. -/
theorem claim1_unauthorized_clears {St Req Val : Type} (A : Authenticator St Req Val)
    (req : Req) (now : Nat) :
    (∀ (attempt : ProviderLoginAttempt Val) (store : Option (ProviderSession St)),
      (A.login req now attempt store).result.isFailed = true →
      (A.login req now attempt store).result.errorStatusCode = some 401 →
      applyOps store (A.login req now attempt store).ops = none) ∧
    (∀ (s : ProviderSession St) (p : Provider St Req Val),
      findProvider A.providers s.provider = some p →
      (Provider.authenticate p req (some s.state)).isFailed = true →
      (Provider.authenticate p req (some s.state)).errorStatusCode = some 401 →
      ∃ e, A.authenticate req now (some s) = some e ∧
        e.result = Provider.authenticate p req (some s.state) ∧
        applyOps (some s) e.ops = none) := by
  constructor
  · intro attempt store hf h4
    exact login_failed401_clears A req now attempt store hf h4
  · intro s p hp hf h4
    have hps := passedState_owner s
    have hq : (Provider.authenticate p req (passedState (some s) s.provider)).isNotHandled
        = false := by
      rw [hps]; exact isFailed_isNotHandled hf
    have hstop := authLoop_stops A req now (some s) [] s.provider p
      (A.providers.filter fun e => e.1 != s.provider) (by intro e he; cases he) hq
    rw [List.nil_append] at hstop
    refine ⟨_, by rw [authenticate_session_head A req now s p hp, hstop], by simp [hps], ?_⟩
    show applyOps (some s) (A.updateSessionValue now s.provider
      (Provider.authenticate p req (passedState (some s) s.provider))
      (ownedSession (some s) s.provider) (A.isSystemAPIRequest req)) = none
    rw [hps, ownedSession_owner]
    cases hr : Provider.authenticate p req (some s.state) with
    | notHandled => simp [AuthenticationResult.isFailed, hr] at hf
    | succeeded u i => simp [AuthenticationResult.isFailed, hr] at hf
    | redirected d i => simp [AuthenticationResult.isFailed, hr] at hf
    | failed c =>
      simp only [AuthenticationResult.errorStatusCode, hr] at h4
      injection h4 with h4
      subst h4
      rw [updateSessionValue_failed401]
      rfl

theorem claim1_counterexample :
    demoPQ.authenticate 0 0 (some ⟨"p", none, 3⟩) =
      some ⟨.failed 401, [], [("p", some 3), ("q", none)]⟩ ∧
    applyOps (some (⟨"p", none, 3⟩ : ProviderSession Nat)) [] = some ⟨"p", none, 3⟩ :=
  ⟨by decide, rfl⟩

theorem claim1_witness :
    applyOps (some (⟨"p", none, 3⟩ : ProviderSession Nat))
      ((demoPQ.login 0 0 ⟨"q", 5⟩ (some ⟨"p", none, 3⟩)).ops) = none :=
  (claim1_unauthorized_clears demoPQ 0 0).1 ⟨"q", 5⟩ (some ⟨"p", none, 3⟩)
    (by decide) (by decide)

/-- Claim C9 (confirmed): during `authenticate`, when the current session is owned by
provider P and a different, non-owning provider Q — reached because every provider
visited before it returned not-handled — returns succeeded or redirected with no state
intent (no update, no clear, and succeeded/redirected outcomes are never 401
failures), no storage operation is performed at all and P's stored session survives
unchanged. -/
theorem claim9_non_owner_untouched {St Req Val : Type} (A : Authenticator St Req Val)
    (req : Req) (now : Nat) (s : ProviderSession St) (p : Provider St Req Val)
    (hp : findProvider A.providers s.provider = some p)
    (pre : List (String × Provider St Req Val)) (qname : String)
    (q : Provider St Req Val) (post : List (String × Provider St Req Val))
    (hchain : (s.provider, p) :: (A.providers.filter fun e => e.1 != s.provider) =
      pre ++ (qname, q) :: post)
    (hne : qname ≠ s.provider)
    (hpre : ∀ e ∈ pre,
      Provider.authenticate e.2 req (passedState (some s) e.1) = .notHandled)
    (hs : ((Provider.authenticate q req none).isSucceeded ||
      (Provider.authenticate q req none).isRedirected) = true)
    (hn : (Provider.authenticate q req none).updateState = none)
    (hc : (Provider.authenticate q req none).shouldClearState = false) :
    ∃ e, A.authenticate req now (some s) = some e ∧
      e.result = Provider.authenticate q req none ∧ e.ops = [] ∧
      applyOps (some s) e.ops = some s := by
  have hpq : passedState (some s) qname = none := passedState_other s qname (Ne.symm hne)
  have hq : (Provider.authenticate q req (passedState (some s) qname)).isNotHandled
      = false := by
    rw [hpq]; exact stops_isNotHandled hs
  have hstop := authLoop_stops A req now (some s) pre qname q post hpre hq
  rw [← hchain] at hstop
  have hou : ownedSession (some s) qname = none := ownedSession_other s qname (Ne.symm hne)
  have hops : A.updateSessionValue now qname
      (Provider.authenticate q req (passedState (some s) qname))
      (ownedSession (some s) qname) (A.isSystemAPIRequest req) = [] := by
    rw [hpq, hou]
    exact updateSessionValue_none_noUpdate A now qname _ _ hn
  refine ⟨_, by rw [authenticate_session_head A req now s p hp, hstop],
    by simp [hpq], hops, ?_⟩
  show applyOps (some s) (A.updateSessionValue now qname
    (Provider.authenticate q req (passedState (some s) qname))
    (ownedSession (some s) qname) (A.isSystemAPIRequest req)) = some s
  rw [hops]
  rfl

theorem claim9_witness :
    ∃ e, demoPQKeep.authenticate 0 0 (some ⟨"p", none, 3⟩) = some e ∧
      e.result = Provider.authenticate pSucceedKeep 0 none ∧ e.ops = [] ∧
      applyOps (some (⟨"p", none, 3⟩ : ProviderSession Nat)) e.ops =
        some ⟨"p", none, 3⟩ :=
  claim9_non_owner_untouched demoPQKeep 0 0 ⟨"p", none, 3⟩ pNotHandled
    (by simp [demoPQKeep, findProvider]) [("p", pNotHandled)] "q" pSucceedKeep []
    rfl (by decide)
    (by intro e he; simp at he; subst he; rfl)
    (by decide) (by decide) (by decide)

/-- Claim C2 (confirmed): with no session the provider chain is exactly the
configured-order registry; with a session owned by a registered provider the chain
names that provider first and then the remaining configured providers in configured
order, with no name repeated.  The loop returns the first outcome that is not
not-handled, having called exactly the providers up to and including that one, and
returns not-handled only after calling every provider in the chain. -/
theorem claim2_chain_order {St Req Val : Type} (A : Authenticator St Req Val)
    (req : Req) (now : Nat) (hk : (A.providers.map Prod.fst).Nodup) :
    (A.providerIterator (none : Option (ProviderSession St)) = some A.providers) ∧
    (∀ (s : ProviderSession St) (p : Provider St Req Val),
      findProvider A.providers s.provider = some p →
      ∃ chain, A.providerIterator (some s) = some chain ∧
        chain.map Prod.fst =
          s.provider :: ((A.providers.map Prod.fst).filter fun n => n != s.provider) ∧
        (chain.map Prod.fst).Nodup) ∧
    (∀ sess chain pre qname q post,
      A.providerIterator sess = some chain →
      chain = pre ++ (qname, q) :: post →
      (∀ e ∈ pre, Provider.authenticate e.2 req (passedState sess e.1) = .notHandled) →
      (Provider.authenticate q req (passedState sess qname)).isNotHandled = false →
      ∀ store, A.getSessionValue store = (sess, []) →
      ∃ ops, A.authenticate req now store =
        some ⟨Provider.authenticate q req (passedState sess qname), ops,
          (pre.map fun e => (e.1, passedState sess e.1)) ++
            [(qname, passedState sess qname)]⟩) ∧
    (∀ sess chain,
      A.providerIterator sess = some chain →
      (∀ e ∈ chain, Provider.authenticate e.2 req (passedState sess e.1) = .notHandled) →
      ∀ store, A.getSessionValue store = (sess, []) →
      A.authenticate req now store =
        some ⟨.notHandled, [], chain.map fun e => (e.1, passedState sess e.1)⟩) := by
  refine ⟨rfl, ?_, ?_, ?_⟩
  · intro s p hp
    refine ⟨(s.provider, p) :: (A.providers.filter fun e => e.1 != s.provider),
      by simp [Authenticator.providerIterator, hp], ?_, ?_⟩
    · simp [map_fst_filter_ne]
    · simpa using chainNames_nodup A.providers s.provider hk
  · intro sess chain pre qname q post hiter hchain hpre hq store hgs
    subst hchain
    have hstop := authLoop_stops A req now sess pre qname q post hpre hq
    refine ⟨A.updateSessionValue now qname
      (Provider.authenticate q req (passedState sess qname)) (ownedSession sess qname)
      (A.isSystemAPIRequest req), ?_⟩
    simp [Authenticator.authenticate, hgs, hiter, hstop]
  · intro sess chain hiter hall store hgs
    have hex := authLoop_exhausts A req now sess chain hall
    simp [Authenticator.authenticate, hgs, hiter, hex]

theorem claim2_witness :
    ∃ ops, demoPQKeep.authenticate 0 0 none =
      some ⟨.succeeded "user" .noChange, ops, [("p", none), ("q", none)]⟩ :=
  (claim2_chain_order demoPQKeep 0 0 (by decide)).2.2.1 none
    [("p", pNotHandled), ("q", pSucceedKeep)] [("p", pNotHandled)] "q" pSucceedKeep []
    rfl rfl (by intro e he; simp at he; subst he; rfl) (by decide) none rfl

theorem authenticate_owner_step {St Req Val : Type} (A : Authenticator St Req Val)
    (req : Req) (now : Nat) (s : ProviderSession St) (p : Provider St Req Val)
    (hp : findProvider A.providers s.provider = some p)
    (hq : (Provider.authenticate p req (some s.state)).isNotHandled = false) :
    A.authenticate req now (some s) =
      some ⟨Provider.authenticate p req (some s.state),
        A.updateSessionValue now s.provider
          (Provider.authenticate p req (some s.state)) (some s)
          (A.isSystemAPIRequest req),
        [(s.provider, some s.state)]⟩ := by
  have hps := passedState_owner s
  have hq2 : (Provider.authenticate p req (passedState (some s) s.provider)).isNotHandled
      = false := by
    rw [hps]; exact hq
  have hstop := authLoop_stops A req now (some s) [] s.provider p
    (A.providers.filter fun e => e.1 != s.provider) (by intro e he; cases he) hq2
  rw [List.nil_append] at hstop
  rw [authenticate_session_head A req now s p hp, hstop, hps, ownedSession_owner]
  rfl

/-- Claim C4 (corrected): on a system/background request, when the session-owning
provider (visited first) returns succeeded or redirected with no state intent at all —
neither an update nor a clear request — no storage operation runs: the stored session
is not extended and survives unchanged.  With an explicit state-update request the
update always overrides the background suppression: the envelope is rewritten with the
new state and a recomputed expiry.  (The claim as stated overlooks the clear-intent
case: a succeeded outcome that explicitly requests clearing removes the session even
on a background request, as the counterexample shows.) -/
theorem claim4_background_suppression {St Req Val : Type} (A : Authenticator St Req Val)
    (req : Req) (now : Nat) (s : ProviderSession St) (p : Provider St Req Val)
    (hp : findProvider A.providers s.provider = some p)
    (hsys : A.isSystemAPIRequest req = true)
    (hs : ((Provider.authenticate p req (some s.state)).isSucceeded ||
      (Provider.authenticate p req (some s.state)).isRedirected) = true) :
    ((Provider.authenticate p req (some s.state)).updateState = none →
      (Provider.authenticate p req (some s.state)).shouldClearState = false →
      ∃ e, A.authenticate req now (some s) = some e ∧
        e.result = Provider.authenticate p req (some s.state) ∧ e.ops = [] ∧
        applyOps (some s) e.ops = some s) ∧
    (∀ ns, (Provider.authenticate p req (some s.state)).updateState = some ns →
      ∃ e, A.authenticate req now (some s) = some e ∧
        e.result = Provider.authenticate p req (some s.state) ∧
        applyOps (some s) e.ops =
          some ⟨s.provider, computeExpires A.ttl now, ns⟩) := by
  have hmain := authenticate_owner_step A req now s p hp (stops_isNotHandled hs)
  constructor
  · intro hn hc
    have hops : A.updateSessionValue now s.provider
        (Provider.authenticate p req (some s.state)) (some s)
        (A.isSystemAPIRequest req) = [] := by
      simp [hsys, updateSessionValue_extend A now s.provider
        (Provider.authenticate p req (some s.state)) s true hs hn hc]
    exact ⟨_, hmain, rfl, hops, by simp [hops, applyOps]⟩
  · intro ns hn
    have hops : A.updateSessionValue now s.provider
        (Provider.authenticate p req (some s.state)) (some s)
        (A.isSystemAPIRequest req) =
        [StoreOp.set ⟨s.provider, computeExpires A.ttl now, ns⟩] :=
      updateSessionValue_updateState A now s.provider _ _ _ ns hn
    exact ⟨_, hmain, rfl, by simp [hops, applyOps]⟩

theorem claim4_counterexample :
    demoSysClear.authenticate 0 0 (some ⟨"p", some 9, 3⟩) =
      some ⟨.succeeded "user" .clear, [StoreOp.clear], [("p", some 3)]⟩ ∧
    applyOps (some (⟨"p", some 9, 3⟩ : ProviderSession Nat)) [StoreOp.clear] = none :=
  ⟨by decide, rfl⟩

theorem claim4_witness :
    (∃ e, demoSysKeep.authenticate 0 0 (some ⟨"p", some 9, 3⟩) = some e ∧
      e.result = Provider.authenticate pSucceedKeep 0 (some 3) ∧ e.ops = [] ∧
      applyOps (some (⟨"p", some 9, 3⟩ : ProviderSession Nat)) e.ops =
        some ⟨"p", some 9, 3⟩) ∧
    (∃ e, demoSysUpd.authenticate 0 5 (some ⟨"p", some 9, 3⟩) = some e ∧
      e.result = Provider.authenticate pSucceedUpd 0 (some 3) ∧
      applyOps (some (⟨"p", some 9, 3⟩ : ProviderSession Nat)) e.ops =
        some ⟨"p", some 65, 7⟩) :=
  ⟨(claim4_background_suppression demoSysKeep 0 0 ⟨"p", some 9, 3⟩ pSucceedKeep
      (by simp [demoSysKeep, findProvider]) rfl (by decide)).1 (by decide) (by decide),
   (claim4_background_suppression demoSysUpd 0 5 ⟨"p", some 9, 3⟩ pSucceedUpd
      (by simp [demoSysUpd, findProvider]) rfl (by decide)).2 7 (by decide)⟩

/-- Claim C5 (corrected): a stored envelope always carries the acting provider's name
and the outcome's requested state; its expiry is `computeExpires ttl now`, which
equals `now + ttl` whenever the configured ttl is set and non-zero and the no-expiry
sentinel whenever it is unset — but, because the code computes the expiry as
`this.ttl && Date.now() + this.ttl` and `0` is falsy in JS, a configured ttl of `0`
stores expiry `0` rather than `now + 0`, as the counterexample shows. -/
theorem claim5_stored_envelope {St Req Val : Type} (A : Authenticator St Req Val)
    (req : Req) (now : Nat) :
    (computeExpires none now = none) ∧
    (∀ t, 0 < t → computeExpires (some t) now = some (now + t)) ∧
    (computeExpires (some 0) now = some 0) ∧
    (∀ (attempt : ProviderLoginAttempt Val) (store : Option (ProviderSession St)) ns,
      (A.login req now attempt store).result.updateState = some ns →
      applyOps store (A.login req now attempt store).ops =
        some ⟨attempt.provider, computeExpires A.ttl now, ns⟩) ∧
    (∀ pt (r : AuthenticationResult St) es isSys ns, r.updateState = some ns →
      A.updateSessionValue now pt r es isSys =
        [StoreOp.set ⟨pt, computeExpires A.ttl now, ns⟩]) := by
  refine ⟨rfl, ?_, rfl, ?_, ?_⟩
  · intro t ht
    have hz : t ≠ 0 := Nat.pos_iff_ne_zero.mp ht
    simp [computeExpires, hz]
  · intro attempt store ns hupd
    obtain ⟨l, -, h2⟩ := login_updateState_set A req now attempt store ns hupd
    exact h2
  · intro pt r es isSys ns h
    exact updateSessionValue_updateState A now pt r es isSys ns h

theorem claim5_counterexample :
    demoTtl0.login 0 5 ⟨"p", 3⟩ none =
      ⟨.succeeded "user" (.update 7), [StoreOp.set ⟨"p", some 0, 7⟩], [("p", none)]⟩ ∧
    computeExpires demoTtl0.ttl 5 ≠ some (5 + 0) :=
  ⟨by decide, by decide⟩

theorem claim5_witness :
    applyOps none (demoUpd.login 0 5 ⟨"p", 3⟩ none).ops =
      some ⟨"p", some 65, 7⟩ :=
  (claim5_stored_envelope demoUpd 0 5).2.2.2.1 ⟨"p", 3⟩ none 7 (by decide)

/-- Claim C7 (corrected): a session stored by `login` (with requested state `ns`) and
read back by a subsequent `authenticate` is passed verbatim to the owning provider:
the call log's only entry is the owning provider with exactly the stored state.  When
that provider returns succeeded with no state intent at all — neither update nor
clear — on a non-background request, the session is rewritten with the original state
unchanged, under a refreshed expiry.  (The claim as stated overlooks the clear-intent
case: succeeded plus an explicit clear request deletes the session instead of
rewriting it, as the counterexample shows.) -/
theorem claim7_round_trip {St Req Val : Type} (A : Authenticator St Req Val)
    (req1 req2 : Req) (now1 now2 : Nat) (attempt : ProviderLoginAttempt Val)
    (store0 : Option (ProviderSession St)) (q : Provider St Req Val) (ns : St)
    (hq : findProvider A.providers attempt.provider = some q)
    (hupd : (A.login req1 now1 attempt store0).result.updateState = some ns)
    (hsys : A.isSystemAPIRequest req2 = false)
    (hs : (Provider.authenticate q req2 (some ns)).isSucceeded = true)
    (hn : (Provider.authenticate q req2 (some ns)).updateState = none)
    (hc : (Provider.authenticate q req2 (some ns)).shouldClearState = false) :
    applyOps store0 (A.login req1 now1 attempt store0).ops =
      some ⟨attempt.provider, computeExpires A.ttl now1, ns⟩ ∧
    ∃ e, A.authenticate req2 now2
        (some ⟨attempt.provider, computeExpires A.ttl now1, ns⟩) = some e ∧
      e.calls = [(attempt.provider, some ns)] ∧
      e.result = Provider.authenticate q req2 (some ns) ∧
      applyOps (some (⟨attempt.provider, computeExpires A.ttl now1, ns⟩ :
          ProviderSession St)) e.ops =
        some ⟨attempt.provider, computeExpires A.ttl now2, ns⟩ := by
  obtain ⟨l, -, h1⟩ := login_updateState_set A req1 now1 attempt store0 ns hupd
  refine ⟨h1, ?_⟩
  have hs2 : ((Provider.authenticate q req2 (some ns)).isSucceeded ||
      (Provider.authenticate q req2 (some ns)).isRedirected) = true := by simp [hs]
  have hmain := authenticate_owner_step A req2 now2
    ⟨attempt.provider, computeExpires A.ttl now1, ns⟩ q hq (stops_isNotHandled hs2)
  have hops : A.updateSessionValue now2 attempt.provider
      (Provider.authenticate q req2 (some ns))
      (some (⟨attempt.provider, computeExpires A.ttl now1, ns⟩ : ProviderSession St))
      (A.isSystemAPIRequest req2) =
      [StoreOp.set ⟨attempt.provider, computeExpires A.ttl now2, ns⟩] := by
    simp [hsys, updateSessionValue_extend A now2 attempt.provider
      (Provider.authenticate q req2 (some ns))
      ⟨attempt.provider, computeExpires A.ttl now1, ns⟩ false hs2 hn hc]
  exact ⟨_, hmain, rfl, rfl, by simp [hops, applyOps]⟩

theorem claim7_counterexample :
    applyOps none (demoRoundClear.login 0 5 ⟨"p", 3⟩ none).ops =
      some ⟨"p", some 65, 7⟩ ∧
    demoRoundClear.authenticate 0 9 (some ⟨"p", some 65, 7⟩) =
      some ⟨.succeeded "user" .clear, [StoreOp.clear], [("p", some 7)]⟩ ∧
    applyOps (some (⟨"p", some 65, 7⟩ : ProviderSession Nat)) [StoreOp.clear] = none :=
  ⟨by decide, by decide, rfl⟩

theorem claim7_witness :
    applyOps none (demoRound.login 0 5 ⟨"p", 3⟩ none).ops = some ⟨"p", some 65, 7⟩ ∧
    ∃ e, demoRound.authenticate 0 9 (some ⟨"p", some 65, 7⟩) = some e ∧
      e.calls = [("p", some 7)] ∧
      e.result = Provider.authenticate pRoundTrip 0 (some 7) ∧
      applyOps (some (⟨"p", some 65, 7⟩ : ProviderSession Nat)) e.ops =
        some ⟨"p", some 69, 7⟩ :=
  claim7_round_trip demoRound 0 0 5 9 ⟨"p", 3⟩ none pRoundTrip 7
    (by simp [demoRound, findProvider]) (by decide) rfl (by decide) (by decide)
    (by decide)
